import Mathlib

/-!
# Verification of the mcp-browser generation workflows

A shallow embedding of the core of the `mcp-browser` package: the Grok
image-generation workflow (`grok.py`), the Sora video-generation workflow
(`sora.py`), the shared page primitives (`browser.py`), the metric parsers
(`facebook_metrics.py`) and the configuration constants (`config.py`).

Python strings are modelled as Lean `String` (whose `data` field is a
`List Char`, matching Python's sequence-of-characters view); all string
operations used by the code are implemented here over `List Char` so that
every definition evaluates by kernel reduction.

The browser/DOM environment is modelled by explicit environment records:
one record per retry attempt, holding the answers the page would give to
each query the workflow makes (URL after navigation, element presence,
image `src` lists per poll instant, draft listings per poll instant) and an
optional exception-injection point standing for an `await` call raising.
Time is discrete (seconds); each poll loop advances its own clock by its
sleep interval, exactly as the `while time.time() < deadline` loops do.

Each workflow returns its structured result dict together with a trace of
observable events (pages opened/closed, prompt typed, Create clicked,
drafts snapshot taken, poll invoked, file written), which is what the
claims about one-shot commits, page lifetime and snapshot immutability
quantify over.
-/

/- ## Character-list string utilities (models of Python `str` operations) -/

/-- Model of Python `s.startswith(pre)` over character lists. -/
def pyStartsWith : List Char → List Char → Bool
  | _, [] => true
  | [], _ :: _ => false
  | c :: s, p :: ps => c = p && pyStartsWith s ps

/-- Model of Python `pat in s` (substring containment) over character lists. -/
def containsSub : List Char → List Char → Bool
  | l, pat =>
    pyStartsWith l pat ||
      match l with
      | [] => false
      | _ :: t => containsSub t pat

/-- Model of Python `pat in s` on `String`s. -/
def hasSubstr (s pat : String) : Bool :=
  containsSub s.data pat.data

/-- Model of Python `s.strip()`: drop leading and trailing whitespace. -/
def pyStrip (s : String) : String :=
  String.mk (((s.data.dropWhile Char.isWhitespace).reverse.dropWhile
    Char.isWhitespace).reverse)

/-- Model of Python `s.replace(c, "")` for a one-character pattern:
removes every occurrence of the character. -/
def pyRemoveChar (s : String) (c : Char) : String :=
  String.mk (s.data.filter (fun d => d ≠ c))

/-- Model of Python `s.split(",", 1)` when it succeeds: the part before the
first comma and the part after it; `none` when the string has no comma
(where Python's two-variable unpacking raises `ValueError`). -/
def pySplitFirstComma : List Char → Option (List Char × List Char)
  | [] => none
  | c :: rest =>
    if c = ',' then some ([], rest)
    else
      match pySplitFirstComma rest with
      | some (a, b) => some (c :: a, b)
      | none => none

/-- Model of Python `s[:n]` on `String`s. -/
def pyTake (s : String) (n : Nat) : String :=
  String.mk (s.data.take n)

/-- Numeric value of a list of decimal digit characters. -/
def natOfDigits (l : List Char) : Nat :=
  l.foldl (fun a c => a * 10 + (c.toNat - 48)) 0

/-- Model of Python `set(xs)` for strings: deduplicate, keeping first
occurrences; only membership is ever consulted. -/
def pySet (l : List String) : List String :=
  l.foldl (fun acc h => if h ∈ acc then acc else acc ++ [h]) []

/- ## Configuration constants (`config.py`) -/

def DEFAULT_TIMEOUT_MS : Nat := 120000
def SORA_TIMEOUT_MS : Nat := 1800000
def RETRY_ATTEMPTS : Nat := 3
def RETRY_DELAY_S : Nat := 10
def SORA_RETRY_DELAY_S : Nat := 30
def SCREENSHOT_POLL_INTERVAL_S : Nat := 3
def SORA_DRAFT_POLL_INTERVAL_S : Nat := 30

/- ## Result dicts

Both workflows return `{ success, path, generation_time_ms }` plus an
`error` key present only on failure; modelled as a structure with an
`Option` error field. -/

structure GenResult where
  success : Bool
  path : String
  generation_time_ms : Nat
  error : Option String
  deriving Repr, DecidableEq

/- ## The polling loop shape

Both `_poll_for_loaded_image` (grok.py) and `_poll_drafts_for_new`
(sora.py) are instances of

    deadline = time.time() + timeout
    while time.time() < deadline:
        r = check()
        if r: return r
        sleep(interval)
    return None

modelled with a discrete clock starting at 0. The structural `fuel`
argument (initialised to `deadline + 1`, an upper bound on the number of
iterations whenever `0 < interval`) only makes the recursion structural;
it never runs out on the instances used here. The returned pair carries
the clock value at which the positive check happened. -/

def pollLoopAux (step : Nat → Option α) (interval deadline : Nat) :
    Nat → Nat → Option (α × Nat)
  | _, 0 => none
  | now, fuel + 1 =>
    if now < deadline then
      match step now with
      | some a => some (a, now)
      | none => pollLoopAux step interval deadline (now + interval) fuel
    else none

def pollLoop (step : Nat → Option α) (interval deadline : Nat) :
    Option (α × Nat) :=
  pollLoopAux step interval deadline 0 (deadline + 1)

/- ## Page primitives (`browser.py`) -/

/-- Model of the outcome of `page.wait_for_selector(selector, timeout)`:
the environment says when (if ever) the element appears, and whether some
other underlying error occurs; a timeout is an exception (`.error`). -/
def wait_for_selector_outcome (appearAtMs : Option Nat) (underlyingErr : Bool)
    (timeout_ms : Nat) : Except String Unit :=
  if underlyingErr then .error "Error"
  else
    match appearAtMs with
    | some t => if t ≤ timeout_ms then .ok () else .error "Timeout exceeded"
    | none => .error "Timeout exceeded"

/-- Model of `browser.wait_for_element`: `try: wait_for_selector; return True
except Exception: return False`. -/
def wait_for_element (appearAtMs : Option Nat) (underlyingErr : Bool)
    (timeout_ms : Nat) : Bool :=
  match wait_for_selector_outcome appearAtMs underlyingErr timeout_ms with
  | .ok _ => true
  | .error _ => false

/- ## Metric parsers (`facebook_metrics.py`) -/

/-- Model of Python `int(s)` on a comma-free stripped string: an optional
sign followed by decimal digits, with single underscores allowed between
digit groups (Python's numeric-literal underscores); `none` where `int`
raises `ValueError`. -/
def pyNatCore (l : List Char) : Option Nat :=
  if l ≠ [] ∧ (l.splitOn '_').all (fun g => g ≠ [] ∧ g.all Char.isDigit) then
    some (natOfDigits (l.filter (fun c => c ≠ '_')))
  else none

def pyIntOfString (s : String) : Option Int :=
  match s.data with
  | '+' :: rest => (pyNatCore rest).map Int.ofNat
  | '-' :: rest => (pyNatCore rest).map (fun n => -(n : Int))
  | l => (pyNatCore l).map Int.ofNat

/-- Model of `parse_number`: strip; `"--"`, `""`, `"-"` map to 0; remove commas;
`int(...)`, with `ValueError` caught and mapped to 0. -/
def parse_number (text : String) : Int :=
  if pyStrip text = "--" ∨ pyStrip text = "" ∨ pyStrip text = "-" then 0
  else
    match pyIntOfString (pyRemoveChar (pyStrip text) ',') with
    | some n => n
    | none => 0

/-- Model of Python `float(s)` restricted to the decimal fragment the
distribution column uses: optional sign, digits, optional point and
fraction digits (at least one digit overall). Values are exact rationals. -/
def pyFloatCore (l : List Char) : Option ℚ :=
  let ip := l.takeWhile Char.isDigit
  let rest := l.dropWhile Char.isDigit
  match rest with
  | [] => if ip = [] then none else some ((natOfDigits ip : ℚ))
  | '.' :: fp =>
    if fp.all Char.isDigit ∧ (ip ≠ [] ∨ fp ≠ []) then
      some ((natOfDigits ip : ℚ) + (natOfDigits fp : ℚ) / (10 ^ fp.length))
    else none
  | _ => none

def pyFloatOfString (s : String) : Option ℚ :=
  match s.data with
  | '+' :: rest => pyFloatCore rest
  | '-' :: rest => (pyFloatCore rest).map Neg.neg
  | l => pyFloatCore l

/-- Model of `parse_distribution`: strip; `"--"`, `""`, `"-"` map to `None`; remove
`'x'` characters; `float(...)`, with `ValueError` caught and mapped to
`None`. -/
def parse_distribution (text : String) : Option ℚ :=
  if pyStrip text = "--" ∨ pyStrip text = "" ∨ pyStrip text = "-" then none
  else pyFloatOfString (pyRemoveChar (pyStrip text) 'x')

/- ## Base64 decoding (`base64.b64decode`, grok.py)

`base64.b64decode(s)` with the default `validate=False`: characters
outside the base-64 alphabet and `'='` are discarded, then the remainder
must be 4-character groups with `'='` padding only at the end; a padding
violation raises `binascii.Error` (modelled as `.error`). Bytes are
modelled as `Nat` values < 256. -/

def b64Val (c : Char) : Option Nat :=
  if 'A' ≤ c ∧ c ≤ 'Z' then some (c.toNat - 65)
  else if 'a' ≤ c ∧ c ≤ 'z' then some (c.toNat - 97 + 26)
  else if '0' ≤ c ∧ c ≤ '9' then some (c.toNat - 48 + 52)
  else if c = '+' then some 62
  else if c = '/' then some 63
  else none

def b64Groups : List Char → Except String (List Nat)
  | [] => .ok []
  | a :: b :: c :: d :: rest =>
    match b64Val a, b64Val b with
    | some va, some vb =>
      if c = '=' ∧ d = '=' ∧ rest = [] then .ok [va * 4 + vb / 16]
      else
        match b64Val c with
        | some vc =>
          if d = '=' ∧ rest = [] then
            .ok [va * 4 + vb / 16, (vb % 16) * 16 + vc / 4]
          else
            match b64Val d with
            | some vd =>
              (b64Groups rest).map
                (fun tl => (va * 4 + vb / 16) :: ((vb % 16) * 16 + vc / 4) ::
                  ((vc % 4) * 64 + vd) :: tl)
            | none => .error "Invalid base64-encoded string"
        | none => .error "Invalid base64-encoded string"
    | _, _ => .error "Invalid base64-encoded string"
  | _ => .error "Incorrect padding"

def b64decodePy (l : List Char) : Except String (List Nat) :=
  b64Groups (l.filter (fun c => (b64Val c).isSome || c = '='))

/- ## Event traces

The observable actions a workflow performs against the browser and the
filesystem. Page handles are numbered by a counter threaded through the
run, so an `.openPage n` without a matching `.closePage n` in the final
trace is a page left open when the call returns. -/

inductive Ev where
  | attemptStart
  | openPage (id : Nat)
  | closePage (id : Nat)
  | typed (prompt : String)
  | durSel (seconds : Nat)
  | snapshot (hrefs : List String)
  | createClick
  | polled (existing : List String) (res : Option String)
  | wrote (path : String) (bytes : List Nat)
  deriving Repr, DecidableEq

def isCreateClick : Ev → Bool
  | .createClick => true
  | _ => false

def isAttemptStart : Ev → Bool
  | .attemptStart => true
  | _ => false

/-- Number of times the Create button was clicked in a trace. -/
def createCount (evs : List Ev) : Nat := evs.countP isCreateClick

/-- Number of retry-loop iterations started in a trace. -/
def attemptCount (evs : List Ev) : Nat := evs.countP isAttemptStart

/-- Attempt outcome: a success return, a recoverable failure that lets the
`for` loop continue (`continue`, or fall-through after an exception), or a
failure that leaves the loop (`break`, or an exception on the final
attempt). -/
inductive AOut where
  | success (r : GenResult)
  | retry (err : String)
  | halt (err : String)
  deriving Repr, DecidableEq

/- ## Grok image workflow (`grok.py`) -/

/-- Exception-injection points of one grok attempt, each naming an `await`
in the source that can raise: `page.goto` inside `get_page` (the tab is
already open, so it leaks), the keyboard typing block, and the final
decode-and-save block. `.noExc` means no call raises this attempt. -/
inductive GrokExc where
  | noExc
  | atOpen
  | atType
  | atSave
  deriving Repr, DecidableEq

/-- Environment of one grok attempt: everything the page answers. -/
structure GrokAttemptEnv where
  excAt : GrokExc := .noExc
  excMsg : String := "Exception"
  pageUrl : String := "https://grok.com/imagine"
  editorAppearMs : Option Nat := some 0
  editorErr : Bool := false
  submitFound : Bool := true
  imagesAt : Nat → List (List Char) := fun _ => []
  elapsedMs : Nat := 0

def dataImageChars : List Char := "data:image/".data

/-- For one qualifying `src`: `_, encoded = src.split(",", 1)` (raising
`ValueError` on a comma-free string) then `base64.b64decode(encoded)`
(raising `binascii.Error` on bad padding). -/
def grokDecodeSrc (src : List Char) : Except String (List Nat) :=
  match pySplitFirstComma src with
  | none => .error "not enough values to unpack (expected 2, got 1)"
  | some (_, encoded) => b64decodePy encoded

/-- The body of `_poll_for_loaded_image`'s scan at one instant: the first
`img[alt="Generated image"]` whose `src` is a `data:image/` URI longer
than 150 000 characters, decoded by `grokDecodeSrc`. -/
def grokPollStep (images : Nat → List (List Char)) (t : Nat) :
    Option (Except String (List Nat)) :=
  ((images t).find?
      (fun src => pyStartsWith src dataImageChars &&
        decide (150000 < src.length))).map grokDecodeSrc

/-- Model of `_poll_for_loaded_image`: poll every `SCREENSHOT_POLL_INTERVAL_S`
seconds until the deadline `timeout_ms / 1000`; `.ok none` is the `None`
timeout return, `.error` a raised exception, and the `Nat` in the positive
result is the clock value at which the image was found. -/
def _poll_for_loaded_image (images : Nat → List (List Char))
    (timeout_ms : Nat) : Except String (Option (List Nat × Nat)) :=
  match pollLoop (grokPollStep images) SCREENSHOT_POLL_INTERVAL_S
      (timeout_ms / 1000) with
  | none => .ok none
  | some (.ok bs, t) => .ok (some (bs, t))
  | some (.error m, _) => .error m

/-- Recoverable-failure epilogue shared by every
`if attempt < RETRY_ATTEMPTS: close; sleep; continue / else: break` block:
when retrying the page is closed, on the final attempt the loop breaks
with the page still open. -/
def recovOut (err : String) (isLast : Bool) (pid : Nat) (evs : List Ev) :
    AOut × List Ev :=
  (if isLast then .halt err else .retry err,
    if isLast then evs else evs ++ [.closePage pid])

/-- The `except Exception` epilogue: the handler closes the page (when one was
assigned), and the loop continues unless this was the final attempt. -/
def excOut (msg : String) (isLast : Bool) (evs : List Ev) :
    AOut × List Ev :=
  (if isLast then .halt msg else .retry msg, evs)

/-- The success dict `{ success: True, path, generation_time_ms }`
(no `error` key). -/
def mkSuccess (output_path : String) (elapsedMs : Nat) : GenResult :=
  { success := true, path := output_path, generation_time_ms := elapsedMs,
    error := none }

/-- One iteration of `generate_grok_image`'s retry loop (the body of the
`for attempt in range(...)` with its `try/except`), returning the
outcome, the events of this attempt, and the next fresh page id. -/
def grokAttempt (e : GrokAttemptEnv) (isLast : Bool) (ctr : Nat)
    (prompt output_path : String) : (AOut × List Ev) × Nat :=
  let pid := ctr
  if e.excAt = .atOpen then
    -- get_page: the new tab opened, page.goto raised; `page` stays None
    (excOut e.excMsg isLast [.attemptStart, .openPage pid], ctr + 1)
  else
    let evs0 : List Ev := [.attemptStart, .openPage pid]
    if hasSubstr e.pageUrl "login" || hasSubstr e.pageUrl "oauth" then
      (recovOut "Redirected to login. Log in to X/Grok first (SMI_HEADLESS=false)"
        isLast pid evs0, ctr + 1)
    else if wait_for_element e.editorAppearMs e.editorErr 15000 = false then
      (recovOut "Could not find prompt editor on Grok Imagine page"
        isLast pid evs0, ctr + 1)
    else if e.excAt = .atType then
      (excOut e.excMsg isLast (evs0 ++ [.closePage pid]), ctr + 1)
    else
      let evs1 := evs0 ++ [.typed prompt]
      if e.submitFound = false then
        (recovOut "Could not find Submit button" isLast pid evs1, ctr + 1)
      else
        match _poll_for_loaded_image e.imagesAt DEFAULT_TIMEOUT_MS with
        | .error m => (excOut m isLast (evs1 ++ [.closePage pid]), ctr + 1)
        | .ok none =>
          (recovOut "No full-res image found after generation" isLast pid evs1,
            ctr + 1)
        | .ok (some (bytes, _)) =>
          if e.excAt = .atSave then
            (excOut e.excMsg isLast (evs1 ++ [.closePage pid]), ctr + 1)
          else
            ((.success (mkSuccess output_path e.elapsedMs),
              evs1 ++ [.wrote output_path bytes, .closePage pid]), ctr + 1)

def grokFail (lastError : String) : GenResult :=
  { success := false, path := "", generation_time_ms := 0,
    error := some ("Failed after 3 attempts: " ++ lastError) }

/-- The retry loop of `generate_grok_image`, counting down the remaining
attempts (`rem + attempts so far = RETRY_ATTEMPTS`). -/
def grokGo (prompt output_path : String) (envs : Nat → GrokAttemptEnv) :
    Nat → Nat → String → Nat → List Ev → GenResult × List Ev
  | 0, _, lastError, _, evs => (grokFail lastError, evs)
  | rem + 1, att, _, ctr, evs =>
    match grokAttempt (envs att) (rem == 0) ctr prompt output_path with
    | ((.success r, evs2), _) => (r, evs ++ evs2)
    | ((.halt err, evs2), _) => (grokFail err, evs ++ evs2)
    | ((.retry err, evs2), ctr2) =>
      grokGo prompt output_path envs rem (att + 1) err ctr2 (evs ++ evs2)

/-- Model of `generate_grok_image(prompt, output_path, aspect_ratio)`; the third
argument is the aspect-ratio string, accepted and never read. -/
def generate_grok_image (prompt output_path : String) (ar : String)
    (envs : Nat → GrokAttemptEnv) : GenResult × List Ev :=
  grokGo prompt output_path envs RETRY_ATTEMPTS 1 "" 0 []

/- ## Sora video workflow (`sora.py`) -/

/-- Exception-injection points of one sora attempt: `page.goto` inside
`get_page` (tab already open, leaks), the textarea click/fill block, the
`_get_draft_hrefs` read on the snapshot drafts page (which the handler
does not close), the post-Create `page.goto(SORA_DRAFTS_URL)`, and the
final download block. `.noExc` means no call raises this attempt. -/
inductive SoraExc where
  | noExc
  | atOpen
  | atFill
  | atSnapshot
  | atGotoDrafts
  | atDownload
  deriving Repr, DecidableEq

/-- Environment of one sora attempt. -/
structure SoraAttemptEnv where
  excAt : SoraExc := .noExc
  excMsg : String := "Exception"
  pageUrl : String := "https://sora.chatgpt.com/storyboard"
  masterAppearMs : Option Nat := some 0
  masterErr : Bool := false
  scenesAt : Nat → Bool := fun _ => true
  draftHrefsSnapshot : List String := []
  createBtnFound : Bool := true
  draftsAt : Nat → List String := fun _ => []
  videoElFound : Bool := true
  videoSrc : Option String := some "https://videos.example/v.mp4"
  fetchedBytes : List Nat := []
  elapsedMs : Nat := 0

/-- The list comprehension
`[h for h in current_hrefs if h not in existing_draft_set]`. -/
def newHrefs (current : List String) (existing : List String) : List String :=
  current.filter (fun h => decide (h ∉ existing))

/-- Model of `_poll_drafts_for_new`: reload the drafts listing every
`SORA_DRAFT_POLL_INTERVAL_S` seconds until `timeout_ms / 1000`, returning
the first href not in the pre-commit set (paired with the clock value at
which it was seen), or `none` on deadline exhaustion. -/
def _poll_drafts_for_new (draftsAt : Nat → List String)
    (existing_draft_set : List String) (timeout_ms : Nat) :
    Option (String × Nat) :=
  pollLoop (fun t => (newHrefs (draftsAt t) existing_draft_set).head?)
    SORA_DRAFT_POLL_INTERVAL_S (timeout_ms / 1000)

/-- Model of `_wait_for_scene_cards`: poll every 5 seconds for scene cards until
`timeout_s`; the two DOM probes of one iteration are abstracted into one
environment predicate. The caller ignores the result. -/
def _wait_for_scene_cards (scenesAt : Nat → Bool) (timeout_s : Nat) : Bool :=
  (pollLoop (fun t => if scenesAt t then some () else none) 5 timeout_s).isSome

def soraFail (lastError : String) : GenResult :=
  { success := false, path := "", generation_time_ms := 0,
    error := some ("Failed after 3 attempts: " ++ lastError) }

/-- The post-commit tail of one sora attempt (everything from
`page.goto(SORA_DRAFTS_URL)` after the Create click to the end of the
`try` block): poll the drafts listing against the pre-commit snapshot,
open the new entry, read the video src, download it. Every failure here
is a `break` (`.halt`) that leaves the storyboard page `pid` open, except
an exception (`.atGotoDrafts` / `.atDownload`), whose handler closes the
page and lets the `for` loop continue. -/
def soraPostCommit (e : SoraAttemptEnv) (isLast : Bool) (pid : Nat)
    (existing : List String) (evs5 : List Ev) (output_path : String)
    (c : Nat) : (AOut × List Ev) × Nat :=
  if e.excAt = .atGotoDrafts then
    (excOut e.excMsg isLast (evs5 ++ [.closePage pid]), c)
  else
    match _poll_drafts_for_new e.draftsAt existing SORA_TIMEOUT_MS with
    | none =>
      ((.halt "Video generation timed out — no new draft appeared",
        evs5 ++ [.polled existing none]), c)
    | some (href, _) =>
      let evs6 := evs5 ++ [.polled existing (some href)]
      if e.videoElFound = false then
        ((.halt "No <video> element found on detail page", evs6), c)
      else if pyStartsWith (e.videoSrc.getD "").data "http".data = false then
        ((.halt ("Video src is not a URL: " ++ pyTake (e.videoSrc.getD "") 80),
          evs6), c)
      else if e.excAt = .atDownload then
        (excOut e.excMsg isLast (evs6 ++ [.closePage pid]), c)
      else
        ((.success (mkSuccess output_path e.elapsedMs),
          evs6 ++ [.wrote output_path e.fetchedBytes, .closePage pid]), c)

/-- One iteration of `generate_sora_video`'s retry loop. Two pages can be
opened: the storyboard page (`pid`) and the short-lived snapshot drafts
page (`pid + 1`). Failure paths after the Create click `break` without
closing the storyboard page, exactly as in the source. -/
def soraAttempt (e : SoraAttemptEnv) (isLast : Bool) (ctr : Nat)
    (prompt : String) (duration : Nat) (output_path : String) :
    (AOut × List Ev) × Nat :=
  let pid := ctr
  if e.excAt = .atOpen then
    (excOut e.excMsg isLast [.attemptStart, .openPage pid], ctr + 1)
  else
    let evs0 : List Ev := [.attemptStart, .openPage pid]
    if hasSubstr e.pageUrl "login" then
      (recovOut "Redirected to login. Please log in to ChatGPT/Sora first (requires ChatGPT Plus/Pro, run with SMI_HEADLESS=false)"
        isLast pid evs0, ctr + 1)
    else
      -- Step 2: _set_duration (best-effort, swallows its own exceptions)
      let evs1 := evs0 ++ [.durSel duration]
      if wait_for_element e.masterAppearMs e.masterErr 15000 = false then
        (recovOut "Could not find master prompt textarea ('Describe your video...')"
          isLast pid evs1, ctr + 1)
      else if e.excAt = .atFill then
        (excOut e.excMsg isLast (evs1 ++ [.closePage pid]), ctr + 1)
      else
        let evs2 := evs1 ++ [.typed prompt]
        -- Step 6: `scene_cards_found = await _wait_for_scene_cards(page, 600)`
        -- is assigned and never used; it has no observable effect here.
        -- Step 6': snapshot existing drafts on a second page
        let dpid := ctr + 1
        let evs3 := evs2 ++ [.openPage dpid]
        if e.excAt = .atSnapshot then
          (excOut e.excMsg isLast (evs3 ++ [.closePage pid]), ctr + 2)
        else
          let existing := pySet e.draftHrefsSnapshot
          let evs4 := evs3 ++ [.snapshot existing, .closePage dpid]
          if e.createBtnFound = false then
            (recovOut "Could not find Create button" isLast pid evs4, ctr + 2)
          else
            -- Step 7: click Create (the irrevocable commit)
            soraPostCommit e isLast pid existing (evs4 ++ [.createClick])
              output_path (ctr + 2)

/-- The retry loop of `generate_sora_video`. -/
def soraGo (prompt output_path : String) (duration : Nat)
    (envs : Nat → SoraAttemptEnv) :
    Nat → Nat → String → Nat → List Ev → GenResult × List Ev
  | 0, _, lastError, _, evs => (soraFail lastError, evs)
  | rem + 1, att, _, ctr, evs =>
    match soraAttempt (envs att) (rem == 0) ctr prompt duration output_path with
    | ((.success r, evs2), _) => (r, evs ++ evs2)
    | ((.halt err, evs2), _) => (soraFail err, evs ++ evs2)
    | ((.retry err, evs2), ctr2) =>
      soraGo prompt output_path duration envs rem (att + 1) err ctr2 (evs ++ evs2)

/-- Model of `generate_sora_video(prompt, output_path, duration, aspect_ratio)`;
the fourth argument is the aspect-ratio string, accepted and never read. -/
def generate_sora_video (prompt output_path : String) (duration : Nat)
    (ar : String) (envs : Nat → SoraAttemptEnv) : GenResult × List Ev :=
  soraGo prompt output_path duration envs RETRY_ATTEMPTS 1 "" 0 []

/-- A sora attempt environment that reaches the Create click cleanly and
then exhausts the drafts-poll deadline with no new entry: no exception is
injected, no login redirect, the master textarea is found, the Create
button is found, and the poll against the pre-commit snapshot returns
`None`. -/
def reachesPollTimeout (e : SoraAttemptEnv) : Prop :=
  e.excAt = .noExc ∧
  hasSubstr e.pageUrl "login" = false ∧
  wait_for_element e.masterAppearMs e.masterErr 15000 = true ∧
  e.createBtnFound = true ∧
  _poll_drafts_for_new e.draftsAt (pySet e.draftHrefsSnapshot)
    SORA_TIMEOUT_MS = none

/- ## Concrete environments used by counterexamples and witnesses -/

/-- Sora environments in which every attempt runs cleanly up to the Create
click and then the post-commit `page.goto(SORA_DRAFTS_URL)` raises a
navigation error. -/
def soraPostCommitExcEnvs : Nat → SoraAttemptEnv := fun _ =>
  { excAt := .atGotoDrafts, excMsg := "Page.goto: net::ERR_NETWORK_CHANGED" }

/-- Sora environments in which every attempt is redirected to a login
page. -/
def soraLoginEnvs : Nat → SoraAttemptEnv := fun _ =>
  { pageUrl := "https://auth.openai.com/login?returnTo=sora" }

/-- Sora environments in which the workflow commits but the drafts listing
never changes within the deadline. -/
def soraTimeoutEnvs : Nat → SoraAttemptEnv := fun _ =>
  { draftHrefsSnapshot := ["/d/old"], draftsAt := fun _ => ["/d/old"] }

/-- Sora environments for a clean success: one pre-existing draft, and the
new draft `/d/new` visible from the first post-commit poll. -/
def soraOkEnvs : Nat → SoraAttemptEnv := fun _ =>
  { draftHrefsSnapshot := ["/d/old"], draftsAt := fun _ => ["/d/old", "/d/new"],
    fetchedBytes := [0, 0, 0, 32], elapsedMs := 600000 }

/-- Grok environments in which the Submit button is never found. -/
def grokSubmitMissingEnvs : Nat → GrokAttemptEnv := fun _ =>
  { submitFound := false }

/-- A full-resolution data URI of 150 016 characters: the `data:image/`
marker, 150 000 filler characters, then the comma and the base64 payload
`QUJD` (decoding to the bytes of `ABC`). -/
def bigSrc : List Char :=
  (dataImageChars ++ List.replicate 150000 'A') ++ ",QUJD".data

/-- Grok environments for a clean success: `bigSrc` is visible from the
first poll instant. -/
def grokOkEnvs : Nat → GrokAttemptEnv := fun _ =>
  { imagesAt := fun _ => [bigSrc], elapsedMs := 31000 }

/- ═══════════════════════════════════════════════════════════════════
   Theorems
   ═══════════════════════════════════════════════════════════════════ -/

/- ## Generic facts about the polling loop -/

/-- A positive poll result was produced by the check at the returned
instant, which lies before the deadline. -/
theorem pollLoopAux_some (step : Nat → Option α) (i D : Nat) :
    ∀ fuel now a t, pollLoopAux step i D now fuel = some (a, t) →
      step t = some a ∧ now ≤ t ∧ t < D := by
  intro fuel
  induction fuel with
  | zero => intro now a t h; simp [pollLoopAux] at h
  | succ n ih =>
    intro now a t h
    unfold pollLoopAux at h
    by_cases hd : now < D
    · simp only [if_pos hd] at h
      cases hs : step now with
      | some b => rw [hs] at h; simp at h; obtain ⟨rfl, rfl⟩ := h; exact ⟨hs, Nat.le_refl _, hd⟩
      | none =>
        rw [hs] at h
        obtain ⟨h1, h2, h3⟩ := ih (now + i) a t h
        exact ⟨h1, Nat.le_trans (Nat.le_add_right _ _) h2, h3⟩
    · simp [if_neg hd] at h

/-- If the check is negative at every instant before the deadline, the
loop returns the `none` sentinel. -/
theorem pollLoopAux_none (step : Nat → Option α) (i D : Nat)
    (hnever : ∀ u, u < D → step u = none) :
    ∀ fuel now, pollLoopAux step i D now fuel = none := by
  intro fuel
  induction fuel with
  | zero => intro now; simp [pollLoopAux]
  | succ n ih =>
    intro now
    unfold pollLoopAux
    by_cases hd : now < D
    · simp only [if_pos hd, hnever now hd]; exact ih (now + i)
    · simp [if_neg hd]

/-- If the check is negative strictly before `T`, positive from `T` on,
and `T + i` fits inside the deadline, the loop returns a positive result
at an instant in `[T, T + i)`. -/
theorem pollLoopAux_finds (step : Nat → Option α) (i D T : Nat)
    (hi : 0 < i)
    (hbefore : ∀ u, u < T → step u = none)
    (hafter : ∀ u, T ≤ u → (step u).isSome = true)
    (hTD : T + i ≤ D) :
    ∀ fuel now, now < T + i → T + i ≤ now + fuel →
      ∃ a t, pollLoopAux step i D now fuel = some (a, t) ∧
        step t = some a ∧ T ≤ t ∧ t < T + i := by
  intro fuel
  induction fuel with
  | zero => intro now h1 h2; omega
  | succ n ih =>
    intro now h1 h2
    have hd : now < D := Nat.lt_of_lt_of_le h1 hTD
    unfold pollLoopAux
    rw [if_pos hd]
    cases hs : step now with
    | some a =>
      refine ⟨a, now, rfl, hs, ?_, h1⟩
      by_contra hlt
      rw [hbefore now (by omega)] at hs
      exact Option.noConfusion hs
    | none =>
      have hnT : now < T := by
        by_contra hge
        have := hafter now (by omega)
        rw [hs] at this
        simp at this
      exact ih (now + i) (by omega) (by omega)

/- ## C5 — polling-primitive timing -/

/-- C5 counterexample: in `_poll_drafts_for_new` with a 40 000 ms deadline
(D = 40 s, interval 30 s), a new draft that first appears at T = 35 s —
strictly within the deadline — is never returned: the checks happen at
0 s and 30 s only, so the loop returns the negative sentinel even though
T < D, contradicting the claim that a predicate first true at T within D
yields a positive result by T plus one interval. -/
theorem C5_poll_misses_boundary_cex :
    _poll_drafts_for_new (fun t => if 35 ≤ t then ["/d/late"] else []) []
        40000 = none ∧
    newHrefs ["/d/late"] [] = ["/d/late"] ∧
    (35 < 40000 / 1000) = True := by
  refine ⟨by decide, by decide, by decide⟩

/-- C5 (amended): for the two polling loops built on the shared loop shape
(`_poll_drafts_for_new` and `_poll_for_loaded_image`), if the check is
negative before instant `T`, positive from `T` on, and `T` plus one
polling interval still fits inside the deadline, the loop returns the
positive result at an instant in `[T, T + interval)`; and if the check is
negative at every instant before the deadline, the loop returns the
negative sentinel (`None`). (The claim's weaker proviso `T < deadline`
is not sufficient: see the counterexample.) -/
theorem C5_poll_timing :
    (∀ (draftsAt : Nat → List String) (S : List String) (tms T : Nat),
      (∀ u, u < T → newHrefs (draftsAt u) S = []) →
      (∀ u, T ≤ u → newHrefs (draftsAt u) S ≠ []) →
      T + SORA_DRAFT_POLL_INTERVAL_S ≤ tms / 1000 →
      ∃ h t, _poll_drafts_for_new draftsAt S tms = some (h, t) ∧
        T ≤ t ∧ t < T + SORA_DRAFT_POLL_INTERVAL_S) ∧
    (∀ (draftsAt : Nat → List String) (S : List String) (tms : Nat),
      (∀ u, u < tms / 1000 → newHrefs (draftsAt u) S = []) →
      _poll_drafts_for_new draftsAt S tms = none) ∧
    (∀ (images : Nat → List (List Char)) (tms T : Nat),
      (∀ u, u < T → grokPollStep images u = none) →
      (∀ u, T ≤ u → ∃ bs, grokPollStep images u = some (.ok bs)) →
      T + SCREENSHOT_POLL_INTERVAL_S ≤ tms / 1000 →
      ∃ bs t, _poll_for_loaded_image images tms = .ok (some (bs, t)) ∧
        T ≤ t ∧ t < T + SCREENSHOT_POLL_INTERVAL_S) ∧
    (∀ (images : Nat → List (List Char)) (tms : Nat),
      (∀ u, u < tms / 1000 → grokPollStep images u = none) →
      _poll_for_loaded_image images tms = .ok none) := by
  refine ⟨?_, ?_, ?_, ?_⟩
  · intro draftsAt S tms T hbefore hafter hTD
    have hc : SORA_DRAFT_POLL_INTERVAL_S = 30 := rfl
    have hfind := pollLoopAux_finds
      (fun t => (newHrefs (draftsAt t) S).head?) SORA_DRAFT_POLL_INTERVAL_S
      (tms / 1000) T (by decide)
      (fun u hu => by
        show (newHrefs (draftsAt u) S).head? = none
        rw [hbefore u hu]; rfl)
      (fun u hu => by
        show ((newHrefs (draftsAt u) S).head?).isSome = true
        cases hl : newHrefs (draftsAt u) S with
        | nil => exact absurd hl (hafter u hu)
        | cons a l => rfl)
      hTD (tms / 1000 + 1) 0 (by omega) (by omega)
    obtain ⟨a, t, hpoll, _, hTt, htlt⟩ := hfind
    exact ⟨a, t, hpoll, hTt, htlt⟩
  · intro draftsAt S tms hnever
    exact pollLoopAux_none _ _ _
      (fun u hu => by
        show (newHrefs (draftsAt u) S).head? = none
        rw [hnever u hu]; rfl) _ _
  · intro images tms T hbefore hafter hTD
    have hc : SCREENSHOT_POLL_INTERVAL_S = 3 := rfl
    have hfind := pollLoopAux_finds (grokPollStep images)
      SCREENSHOT_POLL_INTERVAL_S (tms / 1000) T (by decide)
      hbefore
      (fun u hu => by
        obtain ⟨bs, hbs⟩ := hafter u hu
        simp [hbs])
      hTD (tms / 1000 + 1) 0 (by omega) (by omega)
    obtain ⟨a, t, hpoll, hstep, hTt, htlt⟩ := hfind
    obtain ⟨bs, hbs⟩ := hafter t hTt
    rw [hstep] at hbs
    injection hbs with h
    subst h
    refine ⟨bs, t, ?_, hTt, htlt⟩
    unfold _poll_for_loaded_image
    rw [show pollLoop (grokPollStep images) SCREENSHOT_POLL_INTERVAL_S
        (tms / 1000) = some (.ok bs, t) from hpoll]
  · intro images tms hnever
    unfold _poll_for_loaded_image
    rw [show pollLoop (grokPollStep images) SCREENSHOT_POLL_INTERVAL_S
        (tms / 1000) = none from pollLoopAux_none _ _ _ hnever _ _]

/-- C5 witness: the drafts poll with a new draft visible from the first
instant returns it within one interval of time 0. -/
theorem C5_poll_timing_witness :
    ∃ h t, _poll_drafts_for_new (fun _ => ["/d/w"]) [] 1800000 =
        some (h, t) ∧ 0 ≤ t ∧ t < 0 + SORA_DRAFT_POLL_INTERVAL_S :=
  C5_poll_timing.1 (fun _ => ["/d/w"]) [] 1800000 0
    (fun u hu => absurd hu (by omega))
    (fun u _ => by show newHrefs ["/d/w"] [] ≠ []; decide)
    (by decide)

/- ## C8 — metric parsers -/

/-- C8: the metric parsers satisfy the spec's examples, and the numeric
parser maps every input whose cleaned-up text `int(...)` rejects to 0
instead of raising (totality holds by construction: `parse_number` is a
total function). -/
theorem C8_metric_parsers :
    parse_number "6,069,415" = 6069415 ∧
    parse_number "--" = 0 ∧
    parse_number "999" = 999 ∧
    (∀ s : String, pyIntOfString (pyRemoveChar (pyStrip s) ',') = none →
      parse_number s = 0) ∧
    parse_distribution "+0.3x" = some (3 / 10) ∧
    parse_distribution "-0.3x" = some (-(3 / 10)) ∧
    parse_distribution "--" = none := by
  refine ⟨by decide, by decide, by decide, ?_, ?_, ?_, by decide⟩
  · intro s h
    unfold parse_number
    split
    · rfl
    · rw [h]
  · have h : parse_distribution "+0.3x" =
        some ((natOfDigits "0".data : ℚ) +
          (natOfDigits "3".data : ℚ) / 10 ^ ("3".data).length) := rfl
    rw [h, show natOfDigits "0".data = 0 from rfl,
      show natOfDigits "3".data = 3 from rfl,
      show ("3".data).length = 1 from rfl]
    norm_num
  · have h : parse_distribution "-0.3x" =
        some (-((natOfDigits "0".data : ℚ) +
          (natOfDigits "3".data : ℚ) / 10 ^ ("3".data).length)) := rfl
    rw [h, show natOfDigits "0".data = 0 from rfl,
      show natOfDigits "3".data = 3 from rfl,
      show ("3".data).length = 1 from rfl]
    norm_num

/-- C8 witness: applied to the malformed input `"n/a"`, whose cleaned-up
text `int(...)` rejects, the numeric parser returns 0. -/
theorem C8_metric_parsers_witness : parse_number "n/a" = 0 :=
  C8_metric_parsers.2.2.2.1 "n/a" (by decide)

/- ## C9 — wait_for_element never raises -/

/-- C9: `wait_for_element` is a total Boolean function (the `try/except`
converts every underlying exception into a return value): it returns
`true` exactly when no underlying error occurs and the element appears
within the timeout, and `false` on timeout or any underlying error. -/
theorem C9_wait_for_element_iff :
    ∀ (appearAtMs : Option Nat) (err : Bool) (tms : Nat),
      wait_for_element appearAtMs err tms = true ↔
        (err = false ∧ ∃ u, appearAtMs = some u ∧ u ≤ tms) := by
  intro appearAtMs err tms
  unfold wait_for_element wait_for_selector_outcome
  cases err with
  | true => simp
  | false =>
    cases appearAtMs with
    | none => simp
    | some u =>
      by_cases hu : u ≤ tms
      · simp [hu]
      · simp [hu]

/- ## C10 — aspect_ratio is accepted but never read -/

/-- C10: for a fixed prompt, output path (and duration) and environment,
the results and event traces of `generate_grok_image` and
`generate_sora_video` are identical across all values of the
aspect-ratio argument. -/
theorem C10_aspect_ratio_never_read :
    ∀ (prompt output_path a1 a2 : String) (duration : Nat)
      (genvs : Nat → GrokAttemptEnv) (senvs : Nat → SoraAttemptEnv),
      generate_grok_image prompt output_path a1 genvs =
        generate_grok_image prompt output_path a2 genvs ∧
      generate_sora_video prompt output_path duration a1 senvs =
        generate_sora_video prompt output_path duration a2 senvs :=
  fun _ _ _ _ _ _ _ => ⟨rfl, rfl⟩

/- ## Shape lemmas for the workflow attempt bodies -/

/-- Exhaustive description of the post-commit tail's outcomes: an
exception at the drafts navigation (page closed, retried), a `break` with
the storyboard page left open (poll timeout, missing video element, bad
src), an exception at the download (page closed, retried), or success. -/
theorem soraPostCommit_cases (e : SoraAttemptEnv) (isLast : Bool) (pid : Nat)
    (existing : List String) (evs5 : List Ev) (o : String) (c : Nat) :
    (∃ msg, soraPostCommit e isLast pid existing evs5 o c =
        (excOut msg isLast (evs5 ++ [.closePage pid]), c)) ∨
    (∃ msg rr, soraPostCommit e isLast pid existing evs5 o c =
        ((AOut.halt msg, evs5 ++ [.polled existing rr]), c)) ∨
    (∃ msg rr, soraPostCommit e isLast pid existing evs5 o c =
        (excOut msg isLast (evs5 ++ [.polled existing rr, .closePage pid]), c)) ∨
    (∃ href t, _poll_drafts_for_new e.draftsAt existing SORA_TIMEOUT_MS =
        some (href, t) ∧
      soraPostCommit e isLast pid existing evs5 o c =
        ((AOut.success (mkSuccess o e.elapsedMs),
          evs5 ++ [.polled existing (some href), .wrote o e.fetchedBytes,
            .closePage pid]), c)) := by
  unfold soraPostCommit
  repeat' split
  · exact Or.inl ⟨e.excMsg, rfl⟩
  · exact Or.inr (Or.inl ⟨_, none, rfl⟩)
  · rename_i href _ _ _
    exact Or.inr (Or.inl ⟨_, some href, rfl⟩)
  · rename_i href _ _ _ _
    exact Or.inr (Or.inl ⟨_, some href, rfl⟩)
  · rename_i href _ _ _ _ _
    exact Or.inr (Or.inr (Or.inl ⟨e.excMsg, some href, by simp⟩))
  · rename_i hpoll _ _ _
    exact Or.inr (Or.inr (Or.inr ⟨_, _, hpoll, by simp⟩))

/-- Either a sora attempt fails before the Create click — no `.polled`,
no `.wrote`, no success — or it reaches the commit and runs the
post-commit tail on the snapshot taken earlier in the same attempt. -/
theorem soraAttempt_pre_cases (e : SoraAttemptEnv) (isLast : Bool)
    (ctr : Nat) (p : String) (d : Nat) (o : String) :
    ((∀ r, (soraAttempt e isLast ctr p d o).1.1 ≠ AOut.success r) ∧
     (∀ S rr, Ev.polled S rr ∉ (soraAttempt e isLast ctr p d o).1.2) ∧
     (∀ q bs, Ev.wrote q bs ∉ (soraAttempt e isLast ctr p d o).1.2)) ∨
    soraAttempt e isLast ctr p d o =
      soraPostCommit e isLast ctr (pySet e.draftHrefsSnapshot)
        [.attemptStart, .openPage ctr, .durSel d, .typed p,
          .openPage (ctr + 1), .snapshot (pySet e.draftHrefsSnapshot),
          .closePage (ctr + 1), .createClick] o (ctr + 2) := by
  unfold soraAttempt
  repeat' split
  all_goals
    (first
      | (refine Or.inr ?_; simp; done)
      | (left
         refine ⟨fun r => ?_, fun S rr => ?_, fun q bs => ?_⟩ <;>
           (cases isLast <;> simp [excOut, recovOut])))

/-- Skeleton sublist fact used for the snapshot/commit/poll ordering. -/
theorem snapshot_click_polled_sublist (S : List String) (rr : Option String)
    (a1 a2 a3 a4 a5 a7 : Ev) (tl : List Ev) :
    List.Sublist [Ev.snapshot S, Ev.createClick, Ev.polled S rr]
      (a1 :: a2 :: a3 :: a4 :: a5 :: Ev.snapshot S :: a7 :: Ev.createClick ::
        Ev.polled S rr :: tl) := by
  have h1 : List.Sublist [Ev.polled S rr] (Ev.polled S rr :: tl) :=
    List.Sublist.cons₂ _ (List.nil_sublist tl)
  have h2 := List.Sublist.cons₂ Ev.createClick h1
  have h3 := List.Sublist.cons a7 h2
  have h4 := List.Sublist.cons₂ (Ev.snapshot S) h3
  exact (((((h4.cons a5).cons a4).cons a3).cons a2).cons a1)

/-- Every `.polled S rr` event of a sora attempt is preceded (in order)
by a `.snapshot S` of the same identifier set and then by the Create
click: the snapshot is captured strictly before the commit, is never
modified, and is exactly the set the poll diffs against. -/
theorem soraAttempt_polled (e : SoraAttemptEnv) (isLast : Bool) (ctr : Nat)
    (p : String) (d : Nat) (o : String) (out : AOut) (evs : List Ev)
    (c2 : Nat) (h : soraAttempt e isLast ctr p d o = ((out, evs), c2)) :
    ∀ S rr, Ev.polled S rr ∈ evs →
      List.Sublist [Ev.snapshot S, Ev.createClick, Ev.polled S rr] evs := by
  intro S rr hm
  rcases soraAttempt_pre_cases e isLast ctr p d o with ⟨_, hnp, _⟩ | hcommit
  · rw [h] at hnp
    exact absurd hm (hnp S rr)
  · rw [hcommit] at h
    rcases soraPostCommit_cases e isLast ctr (pySet e.draftHrefsSnapshot)
        [.attemptStart, .openPage ctr, .durSel d, .typed p,
          .openPage (ctr + 1), .snapshot (pySet e.draftHrefsSnapshot),
          .closePage (ctr + 1), .createClick] o (ctr + 2) with
      hA | hB | hC | hD
    · obtain ⟨msg, hA⟩ := hA
      rw [hA] at h
      injection h with h1 h2
      injection h1 with h1a h1b
      subst h1b
      simp [excOut] at hm
    · obtain ⟨msg, rr2, hB⟩ := hB
      rw [hB] at h
      injection h with h1 h2
      injection h1 with h1a h1b
      subst h1b
      simp at hm
      obtain ⟨rfl, rfl⟩ : S = pySet e.draftHrefsSnapshot ∧ rr = rr2 := by
        rcases hm with hm | hm <;> simp_all
      simp only [List.cons_append, List.nil_append]
      exact snapshot_click_polled_sublist _ _ _ _ _ _ _ _ _
    · obtain ⟨msg, rr2, hC⟩ := hC
      rw [hC] at h
      injection h with h1 h2
      injection h1 with h1a h1b
      subst h1b
      simp [excOut] at hm
      obtain ⟨rfl, rfl⟩ : S = pySet e.draftHrefsSnapshot ∧ rr = rr2 := by
        rcases hm with hm | hm | hm <;> simp_all
      simp only [List.cons_append, List.nil_append]
      exact snapshot_click_polled_sublist _ _ _ _ _ _ _ _ _
    · obtain ⟨href, t, hpoll, hD⟩ := hD
      rw [hD] at h
      injection h with h1 h2
      injection h1 with h1a h1b
      subst h1b
      simp at hm
      obtain ⟨rfl, rfl⟩ : S = pySet e.draftHrefsSnapshot ∧ rr = some href := by
        rcases hm with hm | hm | hm <;> simp_all
      simp only [List.cons_append, List.nil_append]
      exact snapshot_click_polled_sublist _ _ _ _ _ _ _ _ _

/-- A successful sora attempt returns the success dict built from the
output path, and closes every page it opened (the storyboard page and the
snapshot drafts page). -/
theorem soraAttempt_success (e : SoraAttemptEnv) (isLast : Bool) (ctr : Nat)
    (p : String) (d : Nat) (o : String) (r : GenResult) (evs : List Ev)
    (c2 : Nat)
    (h : soraAttempt e isLast ctr p d o = ((AOut.success r, evs), c2)) :
    r = mkSuccess o e.elapsedMs ∧
    (∀ n, Ev.openPage n ∈ evs → Ev.closePage n ∈ evs) := by
  rcases soraAttempt_pre_cases e isLast ctr p d o with ⟨hns, _, _⟩ | hcommit
  · rw [h] at hns
    exact absurd rfl (hns r)
  · rw [hcommit] at h
    rcases soraPostCommit_cases e isLast ctr (pySet e.draftHrefsSnapshot)
        [.attemptStart, .openPage ctr, .durSel d, .typed p,
          .openPage (ctr + 1), .snapshot (pySet e.draftHrefsSnapshot),
          .closePage (ctr + 1), .createClick] o (ctr + 2) with
      hA | hB | hC | hD
    · obtain ⟨msg, hA⟩ := hA
      rw [hA] at h
      injection h with h1 h2
      injection h1 with h1a h1b
      cases isLast <;> simp [excOut] at h1a
    · obtain ⟨msg, rr2, hB⟩ := hB
      rw [hB] at h
      injection h with h1 h2
      injection h1 with h1a h1b
      simp at h1a
    · obtain ⟨msg, rr2, hC⟩ := hC
      rw [hC] at h
      injection h with h1 h2
      injection h1 with h1a h1b
      cases isLast <;> simp [excOut] at h1a
    · obtain ⟨href, t, hpoll, hD⟩ := hD
      rw [hD] at h
      injection h with h1 h2
      injection h1 with h1a h1b
      injection h1a with h1a
      subst h1b
      refine ⟨h1a.symm, fun n hn => ?_⟩
      simp at hn ⊢
      omega

/-- A successful grok attempt returns the success dict built from the
output path, and closes the page it opened. -/
theorem grokAttempt_success (e : GrokAttemptEnv) (isLast : Bool) (ctr : Nat)
    (p o : String) (r : GenResult) (evs : List Ev) (c : Nat)
    (h : grokAttempt e isLast ctr p o = ((.success r, evs), c)) :
    r = mkSuccess o e.elapsedMs ∧
    (∀ n, Ev.openPage n ∈ evs → Ev.closePage n ∈ evs) := by
  unfold grokAttempt excOut recovOut at h
  repeat' split at h
  all_goals (injection h with h1 h2; injection h1 with h1a h1b; subst h1b)
  all_goals simp_all

/-- Every `.wrote` event of a grok attempt writes, to the requested
output path, exactly the bytes the full-resolution image poll returned. -/
theorem grokAttempt_wrote (e : GrokAttemptEnv) (isLast : Bool) (ctr : Nat)
    (p o : String) (out : AOut) (evs : List Ev) (c : Nat)
    (h : grokAttempt e isLast ctr p o = ((out, evs), c)) :
    ∀ q bs, Ev.wrote q bs ∈ evs →
      q = o ∧ ∃ t, _poll_for_loaded_image e.imagesAt DEFAULT_TIMEOUT_MS =
        .ok (some (bs, t)) := by
  intro q bs hm
  unfold grokAttempt excOut recovOut at h
  repeat' split at h
  all_goals (injection h with h1 h2; injection h1 with h1a h1b; subst h1b)
  all_goals simp_all

/- ## Loop-level lemmas for the retry wrappers -/

/-- Result well-formedness through the sora retry loop: failures carry an
empty path and an error message, successes carry no error. -/
theorem soraGo_result_wf (p o : String) (d : Nat)
    (envs : Nat → SoraAttemptEnv) :
    ∀ rem att le ctr evs,
      ((soraGo p o d envs rem att le ctr evs).1.success = false →
        (soraGo p o d envs rem att le ctr evs).1.path = "" ∧
        ((soraGo p o d envs rem att le ctr evs).1.error).isSome = true) ∧
      ((soraGo p o d envs rem att le ctr evs).1.success = true →
        (soraGo p o d envs rem att le ctr evs).1.error = none) := by
  intro rem
  induction rem with
  | zero =>
    intro att le ctr evs
    constructor <;> intro hs <;> simp_all [soraGo, soraFail]
  | succ n ih =>
    intro att le ctr evs
    unfold soraGo
    cases hatt : soraAttempt (envs att) (n == 0) ctr p d o with
    | mk pr c2 =>
      obtain ⟨out, evs2⟩ := pr
      cases out with
      | success r =>
        obtain ⟨hr, _⟩ := soraAttempt_success _ _ _ _ _ _ _ _ _ hatt
        subst hr
        simp [mkSuccess]
      | retry err => simpa using ih (att + 1) err c2 (evs ++ evs2)
      | halt err => simp [soraFail]

/-- Result well-formedness through the grok retry loop. -/
theorem grokGo_result_wf (p o : String) (envs : Nat → GrokAttemptEnv) :
    ∀ rem att le ctr evs,
      ((grokGo p o envs rem att le ctr evs).1.success = false →
        (grokGo p o envs rem att le ctr evs).1.path = "" ∧
        ((grokGo p o envs rem att le ctr evs).1.error).isSome = true) ∧
      ((grokGo p o envs rem att le ctr evs).1.success = true →
        (grokGo p o envs rem att le ctr evs).1.error = none) := by
  intro rem
  induction rem with
  | zero =>
    intro att le ctr evs
    constructor <;> intro hs <;> simp_all [grokGo, grokFail]
  | succ n ih =>
    intro att le ctr evs
    unfold grokGo
    cases hatt : grokAttempt (envs att) (n == 0) ctr p o with
    | mk pr c2 =>
      obtain ⟨out, evs2⟩ := pr
      cases out with
      | success r =>
        obtain ⟨hr, _⟩ := grokAttempt_success _ _ _ _ _ _ _ _ hatt
        subst hr
        simp [mkSuccess]
      | retry err => simpa using ih (att + 1) err c2 (evs ++ evs2)
      | halt err => simp [grokFail]

/-- Lifting of the snapshot/commit/poll ordering through the sora retry
loop. -/
theorem soraGo_polled (p o : String) (d : Nat) (envs : Nat → SoraAttemptEnv) :
    ∀ rem att le ctr evs,
      (∀ S rr, Ev.polled S rr ∈ evs →
        List.Sublist [Ev.snapshot S, Ev.createClick, Ev.polled S rr] evs) →
      ∀ S rr, Ev.polled S rr ∈ (soraGo p o d envs rem att le ctr evs).2 →
        List.Sublist [Ev.snapshot S, Ev.createClick, Ev.polled S rr]
          (soraGo p o d envs rem att le ctr evs).2 := by
  intro rem
  induction rem with
  | zero =>
    intro att le ctr evs hpre S rr hm
    simpa [soraGo] using hpre S rr (by simpa [soraGo] using hm)
  | succ n ih =>
    intro att le ctr evs hpre S rr hm
    have hstep : ∀ (out : AOut) (evs2 : List Ev) (c2 : Nat),
        soraAttempt (envs att) (n == 0) ctr p d o = ((out, evs2), c2) →
        ∀ S2 rr2, Ev.polled S2 rr2 ∈ evs ++ evs2 →
          List.Sublist [Ev.snapshot S2, Ev.createClick, Ev.polled S2 rr2]
            (evs ++ evs2) := by
      intro out evs2 c2 hatt S2 rr2 hm2
      rcases List.mem_append.mp hm2 with hin | hin
      · exact (hpre S2 rr2 hin).trans (List.sublist_append_left _ _)
      · exact (soraAttempt_polled _ _ _ _ _ _ _ _ _ hatt S2 rr2 hin).trans
          (List.sublist_append_right _ _)
    unfold soraGo at hm ⊢
    cases hatt : soraAttempt (envs att) (n == 0) ctr p d o with
    | mk pr c2 =>
      obtain ⟨out, evs2⟩ := pr
      cases out with
      | success r =>
        rw [hatt] at hm
        exact hstep _ _ _ hatt S rr (by simpa using hm)
      | retry err =>
        rw [hatt] at hm
        exact ih (att + 1) err c2 (evs ++ evs2) (hstep _ _ _ hatt) S rr
          (by simpa using hm)
      | halt err =>
        rw [hatt] at hm
        exact hstep _ _ _ hatt S rr (by simpa using hm)

/-- Lifting of the saved-bytes provenance through the grok retry loop:
every write in the final trace was produced by some attempt's
full-resolution image poll. -/
theorem grokGo_wrote (p o : String) (envs : Nat → GrokAttemptEnv) :
    ∀ rem att le ctr evs q bs,
      Ev.wrote q bs ∈ (grokGo p o envs rem att le ctr evs).2 →
      Ev.wrote q bs ∈ evs ∨
        (q = o ∧ ∃ k t, _poll_for_loaded_image (envs k).imagesAt
          DEFAULT_TIMEOUT_MS = .ok (some (bs, t))) := by
  intro rem
  induction rem with
  | zero =>
    intro att le ctr evs q bs hm
    exact Or.inl (by simpa [grokGo] using hm)
  | succ n ih =>
    intro att le ctr evs q bs hm
    unfold grokGo at hm
    cases hatt : grokAttempt (envs att) (n == 0) ctr p o with
    | mk pr c2 =>
      obtain ⟨out, evs2⟩ := pr
      have hattw := grokAttempt_wrote _ _ _ _ _ _ _ _ hatt
      cases out with
      | success r =>
        rw [hatt] at hm
        simp at hm
        rcases hm with hin | hin
        · exact Or.inl hin
        · obtain ⟨hq, t, hp⟩ := hattw q bs hin
          exact Or.inr ⟨hq, att, t, hp⟩
      | retry err =>
        rw [hatt] at hm
        simp at hm
        rcases ih (att + 1) err c2 (evs ++ evs2) q bs hm with hin | hfound
        · rcases List.mem_append.mp hin with hin2 | hin2
          · exact Or.inl hin2
          · obtain ⟨hq, t, hp⟩ := hattw q bs hin2
            exact Or.inr ⟨hq, att, t, hp⟩
        · exact Or.inr hfound
      | halt err =>
        rw [hatt] at hm
        simp at hm
        rcases hm with hin | hin
        · exact Or.inl hin
        · obtain ⟨hq, t, hp⟩ := hattw q bs hin
          exact Or.inr ⟨hq, att, t, hp⟩

/-- A positive result of the full-resolution poll comes from a rendered
image whose `src` passes the `data:image/` and size-threshold checks, and
the returned bytes are the base64 decoding of the payload after the first
comma of that `src`. -/
theorem poll_image_success_src (images : Nat → List (List Char))
    (tms : Nat) (bs : List Nat) (t : Nat)
    (h : _poll_for_loaded_image images tms = .ok (some (bs, t))) :
    ∃ src, src ∈ images t ∧
      pyStartsWith src dataImageChars = true ∧ 150000 < src.length ∧
      ∃ pre enc, pySplitFirstComma src = some (pre, enc) ∧
        b64decodePy enc = .ok bs := by
  unfold _poll_for_loaded_image at h
  cases hp : pollLoop (grokPollStep images) SCREENSHOT_POLL_INTERVAL_S
      (tms / 1000) with
  | none => rw [hp] at h; simp at h
  | some pr =>
    obtain ⟨r, t2⟩ := pr
    rw [hp] at h
    cases r with
    | error m => simp at h
    | ok bs2 =>
      simp at h
      obtain ⟨h1, h2⟩ := h
      rw [← h1, ← h2]
      obtain ⟨hstep, _, _⟩ :=
        pollLoopAux_some (grokPollStep images) SCREENSHOT_POLL_INTERVAL_S
          (tms / 1000) _ _ _ _ hp
      unfold grokPollStep at hstep
      cases hf : ((images t2).find?
          (fun src => pyStartsWith src dataImageChars &&
            decide (150000 < src.length))) with
      | none => rw [hf] at hstep; simp at hstep
      | some src =>
        rw [hf] at hstep
        simp at hstep
        unfold grokDecodeSrc at hstep
        have hmem := List.mem_of_find?_eq_some hf
        have hpred := List.find?_some hf
        rw [Bool.and_eq_true, decide_eq_true_eq] at hpred
        refine ⟨src, hmem, hpred.1, hpred.2, ?_⟩
        cases hsplit : pySplitFirstComma src with
        | none => rw [hsplit] at hstep; simp at hstep
        | some pr2 =>
          obtain ⟨pre, enc⟩ := pr2
          rw [hsplit] at hstep
          simp at hstep
          exact ⟨pre, enc, rfl, hstep⟩

/-- On an attempt that reaches the Create click and then exhausts the
drafts-poll deadline, the loop body evaluates to a `break` carrying the
timeout message, with exactly one Create click in its events. -/
theorem soraAttempt_timeout_eval (e : SoraAttemptEnv)
    (h : reachesPollTimeout e) (isLast : Bool) (ctr : Nat) (p : String)
    (d : Nat) (o : String) :
    soraAttempt e isLast ctr p d o =
      ((AOut.halt "Video generation timed out — no new draft appeared",
        [.attemptStart, .openPage ctr, .durSel d, .typed p,
          .openPage (ctr + 1), .snapshot (pySet e.draftHrefsSnapshot),
          .closePage (ctr + 1), .createClick,
          .polled (pySet e.draftHrefsSnapshot) none]), ctr + 2) := by
  obtain ⟨h1, h2, h3, h4, h5⟩ := h
  simp [soraAttempt, soraPostCommit, h1, h2, h3, h4, h5]

/- ## C1 — the one-shot commit is re-fired by the retry loop (code bug) -/

set_option maxRecDepth 8000 in
/-- C1 (code-bug demonstration): with an environment in which every
attempt runs cleanly up to the Create click and then the post-commit
`page.goto(SORA_DRAFTS_URL)` raises, the `except` handler retries the
whole flow and the Create button is clicked on every one of the three
attempts — `createCount = 3 > 1` — contradicting the claimed (and
code-commented) at-most-once commit invariant. -/
theorem C1_commit_clicked_on_every_retry :
    createCount (generate_sora_video "p" "v.mp4" 25 "9:16"
      soraPostCommitExcEnvs).2 = 3 ∧
    1 < createCount (generate_sora_video "p" "v.mp4" 25 "9:16"
      soraPostCommitExcEnvs).2 ∧
    attemptCount (generate_sora_video "p" "v.mp4" 25 "9:16"
      soraPostCommitExcEnvs).2 = 3 := by
  refine ⟨by decide, by decide, by decide⟩

/- ## C2 — a post-commit poll timeout is terminal -/

/-- C2: whenever the current attempt reaches the Create click and the
drafts poll then exhausts its deadline with no new entry, the call
terminates at once — no further retry attempt is started, the commit
action is not re-invoked (exactly one Create click and one attempt start
are added to the trace), and the returned failure's error text contains
"timed out". The second conjunct instantiates this at the top of
`generate_sora_video`. -/
theorem C2_post_commit_timeout_terminal :
    ∀ (p o : String) (d : Nat) (a : String) (envs : Nat → SoraAttemptEnv),
      (∀ n att le ctr evs, reachesPollTimeout (envs att) →
        ∃ evsA,
          soraGo p o d envs (n + 1) att le ctr evs =
            (soraFail "Video generation timed out — no new draft appeared",
              evs ++ evsA) ∧
          createCount evsA = 1 ∧ attemptCount evsA = 1) ∧
      (reachesPollTimeout (envs 1) →
        ∃ evsA,
          generate_sora_video p o d a envs =
            (soraFail "Video generation timed out — no new draft appeared",
              evsA) ∧
          createCount evsA = 1 ∧ attemptCount evsA = 1 ∧
          (soraFail
            "Video generation timed out — no new draft appeared").success =
            false ∧
          hasSubstr
            ((soraFail
              "Video generation timed out — no new draft appeared").error.getD
              "") "timed out" = true) := by
  intro p o d a envs
  have hgo : ∀ n att le ctr evs, reachesPollTimeout (envs att) →
      ∃ evsA,
        soraGo p o d envs (n + 1) att le ctr evs =
          (soraFail "Video generation timed out — no new draft appeared",
            evs ++ evsA) ∧
        createCount evsA = 1 ∧ attemptCount evsA = 1 := by
    intro n att le ctr evs h
    refine ⟨[.attemptStart, .openPage ctr, .durSel d, .typed p,
      .openPage (ctr + 1), .snapshot (pySet (envs att).draftHrefsSnapshot),
      .closePage (ctr + 1), .createClick,
      .polled (pySet (envs att).draftHrefsSnapshot) none], ?_, ?_, ?_⟩
    · unfold soraGo
      rw [soraAttempt_timeout_eval (envs att) h]
    · simp [createCount, List.countP_cons, isCreateClick]
    · simp [attemptCount, List.countP_cons, isAttemptStart]
  refine ⟨hgo, fun h => ?_⟩
  obtain ⟨evsA, heq, hc, ha⟩ := hgo 2 1 "" 0 [] h
  exact ⟨evsA, by simpa [generate_sora_video, RETRY_ATTEMPTS] using heq,
    hc, ha, rfl, by decide⟩

set_option maxRecDepth 10000 in
/-- C2 witness: in the concrete environment whose drafts listing never
changes, `generate_sora_video` returns the terminal timeout failure with
exactly one Create click and one attempt. -/
theorem C2_post_commit_timeout_terminal_witness :
    ∃ evsA,
      generate_sora_video "p" "v.mp4" 25 "9:16" soraTimeoutEnvs =
        (soraFail "Video generation timed out — no new draft appeared",
          evsA) ∧
      createCount evsA = 1 ∧ attemptCount evsA = 1 ∧
      (soraFail
        "Video generation timed out — no new draft appeared").success =
        false ∧
      hasSubstr
        ((soraFail
          "Video generation timed out — no new draft appeared").error.getD
          "") "timed out" = true :=
  (C2_post_commit_timeout_terminal "p" "v.mp4" 25 "9:16" soraTimeoutEnvs).2
    ⟨rfl, by decide, rfl, rfl, by decide⟩

/- ## C3 — page lifetime -/

set_option maxRecDepth 2000 in
/-- C3 counterexample: with every attempt redirected to login, the final
attempt's `break` path returns without closing the page it opened
(`openPage 2` has no matching `closePage 2` in the whole trace), so a
PageHandle is retained past its owning attempt. -/
theorem C3_page_left_open_cex :
    (generate_sora_video "p" "v.mp4" 25 "9:16" soraLoginEnvs).1.success =
      false ∧
    Ev.openPage 2 ∈ (generate_sora_video "p" "v.mp4" 25 "9:16"
      soraLoginEnvs).2 ∧
    Ev.closePage 2 ∉ (generate_sora_video "p" "v.mp4" 25 "9:16"
      soraLoginEnvs).2 := by
  refine ⟨by decide, by decide, by decide⟩

/-- C3 (amended): a workflow attempt that ends in success closes every
page it opened before returning; attempts that end by breaking out of the
retry loop (a recoverable failure on the final attempt, or any
post-commit failure) and attempts whose `page.goto` raised inside
`get_page` return with a page still open (see the counterexample). -/
theorem C3_success_attempt_closes_pages :
    ∀ (eg : GrokAttemptEnv) (es : SoraAttemptEnv) (isLast : Bool)
      (ctr : Nat) (p o : String) (d : Nat) (r1 r2 : GenResult)
      (evs1 evs2 : List Ev) (c1 c2 : Nat),
      (grokAttempt eg isLast ctr p o = ((.success r1, evs1), c1) →
        ∀ n, Ev.openPage n ∈ evs1 → Ev.closePage n ∈ evs1) ∧
      (soraAttempt es isLast ctr p d o = ((.success r2, evs2), c2) →
        ∀ n, Ev.openPage n ∈ evs2 → Ev.closePage n ∈ evs2) := by
  intro eg es isLast ctr p o d r1 r2 evs1 evs2 c1 c2
  constructor
  · intro h
    exact (grokAttempt_success _ _ _ _ _ _ _ _ h).2
  · intro h
    exact (soraAttempt_success _ _ _ _ _ _ _ _ _ h).2

/-- C3 witness: the storyboard page (id 0) opened by a concrete
successful sora attempt is closed in that attempt's trace. -/
theorem C3_success_attempt_closes_pages_witness :
    Ev.closePage 0 ∈
      ([.attemptStart, .openPage 0, .durSel 25, .typed "p", .openPage 1,
        .snapshot ["/d/old"], .closePage 1, .createClick,
        .polled ["/d/old"] (some "/d/new"), .wrote "v.mp4" [0, 0, 0, 32],
        .closePage 0] : List Ev) :=
  (C3_success_attempt_closes_pages (grokOkEnvs 0) (soraOkEnvs 0) false 0
      "p" "v.mp4" 25 (mkSuccess "v.mp4" 600000) (mkSuccess "v.mp4" 600000)
      [] _ 0 2).2 (by decide) 0 (by decide)

/- ## C6 — DraftSet diff and snapshot ordering -/

/-- C6: (1) the identifiers detected as new are exactly those present in
the current listing and absent from the snapshot (the set difference
L − S); (2) the href a successful drafts poll returns is in the listing
read at that poll instant and not in the snapshot; (3) in every trace of
`generate_sora_video`, a poll event is preceded, in order, by the
snapshot event carrying the very same identifier set and then by the
Create click — the snapshot is captured strictly before the commit and
never modified afterwards. -/
theorem C6_draftset_diff_and_snapshot :
    (∀ (L S : List String) (h : String),
      h ∈ newHrefs L S ↔ (h ∈ L ∧ h ∉ S)) ∧
    (∀ (draftsAt : Nat → List String) (S : List String) (tms : Nat)
      (h : String) (t : Nat),
      _poll_drafts_for_new draftsAt S tms = some (h, t) →
      h ∈ draftsAt t ∧ h ∉ S) ∧
    (∀ (p o : String) (d : Nat) (a : String)
      (envs : Nat → SoraAttemptEnv) (S : List String) (rr : Option String),
      Ev.polled S rr ∈ (generate_sora_video p o d a envs).2 →
      List.Sublist [Ev.snapshot S, Ev.createClick, Ev.polled S rr]
        (generate_sora_video p o d a envs).2) := by
  have hdiff : ∀ (L S : List String) (h : String),
      h ∈ newHrefs L S ↔ (h ∈ L ∧ h ∉ S) := by
    intro L S h
    simp [newHrefs, List.mem_filter]
  refine ⟨hdiff, ?_, ?_⟩
  · intro draftsAt S tms h t hp
    obtain ⟨hstep, _, _⟩ := pollLoopAux_some _ _ _ _ _ _ _ hp
    have hmem : h ∈ newHrefs (draftsAt t) S := by
      cases hl : newHrefs (draftsAt t) S with
      | nil => rw [hl] at hstep; simp at hstep
      | cons a l =>
        rw [hl] at hstep
        simp at hstep
        simp [hl, hstep]
    exact (hdiff _ _ _).mp hmem
  · intro p o d a envs S rr hm
    exact soraGo_polled p o d envs RETRY_ATTEMPTS 1 "" 0 []
      (fun S2 rr2 hin => absurd hin (List.not_mem_nil _)) S rr hm

set_option maxRecDepth 2000 in
/-- C6 witness: the concrete successful run takes its snapshot
`["/d/old"]` before the Create click and polls with exactly that set. -/
theorem C6_draftset_diff_and_snapshot_witness :
    List.Sublist
      [Ev.snapshot ["/d/old"], Ev.createClick,
        Ev.polled ["/d/old"] (some "/d/new")]
      (generate_sora_video "p" "v.mp4" 25 "9:16" soraOkEnvs).2 :=
  C6_draftset_diff_and_snapshot.2.2 "p" "v.mp4" 25 "9:16" soraOkEnvs
    ["/d/old"] (some "/d/new") (by decide)

/- ## C7 — structured results, no escaping exceptions -/

/-- C7: both workflows are total functions into the result-dict type
(every caught exception becomes a recorded error message, never an
escaping failure); on every failure result the path is the empty string
and the error field is present, and on success the error field is
absent. -/
theorem C7_structured_results :
    ∀ (p o a : String) (d : Nat) (genvs : Nat → GrokAttemptEnv)
      (senvs : Nat → SoraAttemptEnv),
      ((generate_grok_image p o a genvs).1.success = false →
        (generate_grok_image p o a genvs).1.path = "" ∧
        ((generate_grok_image p o a genvs).1.error).isSome = true) ∧
      ((generate_grok_image p o a genvs).1.success = true →
        (generate_grok_image p o a genvs).1.error = none) ∧
      ((generate_sora_video p o d a senvs).1.success = false →
        (generate_sora_video p o d a senvs).1.path = "" ∧
        ((generate_sora_video p o d a senvs).1.error).isSome = true) ∧
      ((generate_sora_video p o d a senvs).1.success = true →
        (generate_sora_video p o d a senvs).1.error = none) := by
  intro p o a d genvs senvs
  obtain ⟨hg1, hg2⟩ := grokGo_result_wf p o genvs RETRY_ATTEMPTS 1 "" 0 []
  obtain ⟨hs1, hs2⟩ := soraGo_result_wf p o d senvs RETRY_ATTEMPTS 1 "" 0 []
  exact ⟨hg1, hg2, hs1, hs2⟩

set_option maxRecDepth 2000 in
/-- C7 witness: a grok run whose Submit button is never found fails with
an empty path and an error message present. -/
theorem C7_structured_results_witness :
    (generate_grok_image "p" "i.png" "1:1" grokSubmitMissingEnvs).1.path =
      "" ∧
    ((generate_grok_image "p" "i.png" "1:1"
      grokSubmitMissingEnvs).1.error).isSome = true :=
  (C7_structured_results "p" "i.png" "1:1" 25 grokSubmitMissingEnvs
    soraLoginEnvs).1 (by decide)

/- ## C4 — only full-resolution payloads are saved -/

/-- C4: every byte string `generate_grok_image` persists was decoded from
a rendered image whose data-URI `src` starts with `data:image/` and is
strictly longer than the 150 000-character placeholder threshold; the
saved bytes are exactly the base64 decoding of the payload after the
first comma of that `src`. In particular no payload at or below the
threshold is ever saved. -/
theorem C4_saved_bytes_full_res :
    ∀ (p o a : String) (envs : Nat → GrokAttemptEnv) (q : String)
      (bs : List Nat),
      Ev.wrote q bs ∈ (generate_grok_image p o a envs).2 →
      q = o ∧ ∃ k t src, src ∈ (envs k).imagesAt t ∧
        pyStartsWith src dataImageChars = true ∧ 150000 < src.length ∧
        ∃ pre enc, pySplitFirstComma src = some (pre, enc) ∧
          b64decodePy enc = .ok bs := by
  intro p o a envs q bs hm
  rcases grokGo_wrote p o envs RETRY_ATTEMPTS 1 "" 0 [] q bs hm with
    hin | ⟨hq, k, t, hp⟩
  · exact absurd hin (List.not_mem_nil _)
  · obtain ⟨src, hmem, hpre, hlen, pre, enc, hsplit, hdec⟩ :=
      poll_image_success_src _ _ _ _ hp
    exact ⟨hq, k, t, src, hmem, hpre, hlen, pre, enc, hsplit, hdec⟩

/- Auxiliary facts about the concrete 150 016-character data URI, proved
symbolically (the filler is never evaluated element by element). -/

theorem pyStartsWith_append_self :
    ∀ (pre rest : List Char), pyStartsWith (pre ++ rest) pre = true := by
  intro pre
  induction pre with
  | nil => intro rest; simp [pyStartsWith]
  | cons c ps ih => intro rest; simp [pyStartsWith, ih]

theorem pySplitFirstComma_cons_ne (c : Char) (hc : ¬c = ',')
    (l : List Char) :
    pySplitFirstComma (c :: l) =
      match pySplitFirstComma l with
      | some (a, b) => some (c :: a, b)
      | none => none := by
  have h : pySplitFirstComma (c :: l) =
      if c = ',' then some ([], l)
      else
        match pySplitFirstComma l with
        | some (a, b) => some (c :: a, b)
        | none => none := rfl
  rw [h, if_neg hc]

theorem pySplitFirstComma_no_comma_append :
    ∀ (l : List Char), (∀ c ∈ l, c ≠ ',') → ∀ rest,
      pySplitFirstComma (l ++ rest) =
        (pySplitFirstComma rest).map (fun pr => (l ++ pr.1, pr.2)) := by
  intro l
  induction l with
  | nil =>
    intro _ rest
    cases h : pySplitFirstComma rest with
    | none => simp [h]
    | some pr => simp [h]
  | cons c ps ih =>
    intro hnc rest
    have hc : c ≠ ',' := hnc c (List.mem_cons_self c ps)
    have hps : ∀ d ∈ ps, d ≠ ',' :=
      fun d hd => hnc d (List.mem_cons_of_mem c hd)
    rw [List.cons_append, pySplitFirstComma_cons_ne c hc, ih hps rest]
    cases h : pySplitFirstComma rest with
    | none => simp
    | some pr => simp

theorem bigSrc_startsWith : pyStartsWith bigSrc dataImageChars = true := by
  rw [bigSrc, List.append_assoc]
  exact pyStartsWith_append_self _ _

theorem bigSrc_length : bigSrc.length = 150016 := by
  rw [bigSrc, List.length_append, List.length_append,
    List.length_replicate]
  decide

theorem bigSrc_split :
    pySplitFirstComma bigSrc =
      some (dataImageChars ++ List.replicate 150000 'A', "QUJD".data) := by
  have hnc : ∀ c ∈ dataImageChars ++ List.replicate 150000 'A', c ≠ ',' := by
    intro c hc
    rcases List.mem_append.mp hc with hin | hin
    · exact (by decide : ∀ c ∈ dataImageChars, c ≠ ',') c hin
    · rw [List.eq_of_mem_replicate hin]; decide
  rw [bigSrc, pySplitFirstComma_no_comma_append _ hnc,
    show pySplitFirstComma (",QUJD".data) = some ([], "QUJD".data) from rfl]
  simp only [Option.map_some', List.append_nil]

theorem grokDecodeSrc_of_split (l pre enc : List Char)
    (h : pySplitFirstComma l = some (pre, enc)) :
    grokDecodeSrc l = b64decodePy enc := by
  unfold grokDecodeSrc
  rw [h]

theorem grokOk_step (k t : Nat) :
    grokPollStep (grokOkEnvs k).imagesAt t = some (Except.ok [65, 66, 67]) := by
  have hpred : (pyStartsWith bigSrc dataImageChars &&
      decide (150000 < bigSrc.length)) = true := by
    rw [bigSrc_startsWith, bigSrc_length]
    decide
  have hfind : List.find?
      (fun src => pyStartsWith src dataImageChars &&
        decide (150000 < src.length)) [bigSrc] = some bigSrc :=
    List.find?_cons_of_pos [] hpred
  have hdec : grokDecodeSrc bigSrc = Except.ok [65, 66, 67] :=
    (grokDecodeSrc_of_split _ _ _ bigSrc_split).trans rfl
  unfold grokPollStep
  rw [show (grokOkEnvs k).imagesAt t = [bigSrc] from rfl, hfind,
    Option.map_some', hdec]

theorem pollLoopAux_head (step : Nat → Option α) (i D fuel : Nat)
    (hD : 0 < D) (a : α) (h : step 0 = some a) :
    pollLoopAux step i D 0 (fuel + 1) = some (a, 0) := by
  unfold pollLoopAux
  rw [if_pos hD, h]

theorem poll_image_head (images : Nat → List (List Char)) (tms : Nat)
    (bs : List Nat) (hD : 0 < tms / 1000)
    (h : grokPollStep images 0 = some (Except.ok bs)) :
    _poll_for_loaded_image images tms = .ok (some (bs, 0)) := by
  unfold _poll_for_loaded_image pollLoop
  rw [pollLoopAux_head _ _ _ _ hD _ h]

theorem grokOk_poll (k : Nat) :
    _poll_for_loaded_image (grokOkEnvs k).imagesAt DEFAULT_TIMEOUT_MS =
      .ok (some ([65, 66, 67], 0)) :=
  poll_image_head _ _ _ (by decide) (grokOk_step k 0)

theorem grokOk_attempt (k : Nat) (isLast : Bool) (ctr : Nat) :
    grokAttempt (grokOkEnvs k) isLast ctr "p" "i.png" =
      ((.success (mkSuccess "i.png" 31000),
        [.attemptStart, .openPage ctr, .typed "p",
          .wrote "i.png" [65, 66, 67], .closePage ctr]), ctr + 1) := by
  have h1 : (grokOkEnvs k).excAt = .noExc := rfl
  have h2 : hasSubstr (grokOkEnvs k).pageUrl "login" = false := rfl
  have h3 : hasSubstr (grokOkEnvs k).pageUrl "oauth" = false := rfl
  have h4 : wait_for_element (grokOkEnvs k).editorAppearMs
      (grokOkEnvs k).editorErr 15000 = true := rfl
  have h5 : (grokOkEnvs k).submitFound = true := rfl
  have h6 : (grokOkEnvs k).elapsedMs = 31000 := rfl
  simp [grokAttempt, h1, h2, h3, h4, h5, h6, grokOk_poll k]

theorem grokGo_head_success (p o : String) (envs : Nat → GrokAttemptEnv)
    (n att ctr : Nat) (le : String) (evs : List Ev) (r : GenResult)
    (evs2 : List Ev) (c2 : Nat)
    (h : grokAttempt (envs att) (n == 0) ctr p o = ((.success r, evs2), c2)) :
    grokGo p o envs (n + 1) att le ctr evs = (r, evs ++ evs2) := by
  unfold grokGo
  rw [h]

theorem grokOk_run :
    (generate_grok_image "p" "i.png" "1:1" grokOkEnvs).2 =
      [.attemptStart, .openPage 0, .typed "p", .wrote "i.png" [65, 66, 67],
        .closePage 0] := by
  have h := grokGo_head_success "p" "i.png" grokOkEnvs 2 1 0 "" [] _ _ _
    (grokOk_attempt 1 (2 == 0) 0)
  show (grokGo "p" "i.png" grokOkEnvs (2 + 1) 1 "" 0 []).2 =
    [.attemptStart, .openPage 0, .typed "p", .wrote "i.png" [65, 66, 67],
      .closePage 0]
  rw [h]
  rfl

/-- C4 witness: in the environment showing the 150 016-character data URI
from the first poll instant, the saved bytes `[65, 66, 67]` are the
base64 decoding of the payload after its first comma. -/
theorem C4_saved_bytes_full_res_witness :
    "i.png" = "i.png" ∧ ∃ k t src, src ∈ (grokOkEnvs k).imagesAt t ∧
      pyStartsWith src dataImageChars = true ∧ 150000 < src.length ∧
      ∃ pre enc, pySplitFirstComma src = some (pre, enc) ∧
        b64decodePy enc = .ok [65, 66, 67] :=
  C4_saved_bytes_full_res "p" "i.png" "1:1" grokOkEnvs "i.png" [65, 66, 67]
    (by rw [grokOk_run]; decide)
